import Mathlib

/-!
# Flight-search front end (`frontend/src/App.jsx`)

A shallow embedding of the React component `App` and its child `FlightCard`:

* JavaScript values that can reach the component (parsed JSON, `undefined`,
  thrown error objects) are the type `JsVal`;
* the component state held by the five `useState` hooks is the record `UiState`;
* the event handlers `handleInputChange`, `swapAirports` and `handleSearch` are
  state transformers; the network is a parameter (`axiosPost`);
* the JSX returned for the error banner, the results panel and `FlightCard` is a
  tree of `Node`s.
-/

namespace FlightSearch

/-! ## JavaScript values -/

/-- The JavaScript values the component can observe. Finite numbers are kept by
their exact rational value (`-0` is identified with `0`); objects are their
data properties in insertion order. -/
inductive JsVal where
  | undefined : JsVal
  | null : JsVal
  | bool (b : Bool) : JsVal
  | num (q : ℚ) : JsVal
  | str (s : String) : JsVal
  | arr (items : List JsVal) : JsVal
  | obj (props : List (String × JsVal)) : JsVal

namespace JsVal

/-- ToBoolean: `undefined`, `null`, `false`, `0` and `""` are falsy, every other
value (all objects and arrays included) is truthy. -/
def truthy : JsVal → Bool
  | undefined => false
  | null => false
  | bool b => b
  | num q => decide (q ≠ 0)
  | str s => decide (s ≠ "")
  | arr _ => true
  | obj _ => true

/-- The test `v === undefined || v === null`. -/
def isNullish : JsVal → Bool
  | undefined => true
  | null => true
  | _ => false

/-- The expression `a || b` (once `b` has been evaluated). -/
def or (a b : JsVal) : JsVal :=
  if a.truthy then a else b

/-- The test `v !== null`. -/
def isNotNull : JsVal → Bool
  | null => false
  | _ => true

/-- The test `v === 1`. -/
def strictEqOne : JsVal → Bool
  | num q => decide (q = 1)
  | _ => false

end JsVal

open JsVal

/-- Own data property `key` of a property list; `undefined` when there is none. -/
def lookupProp (key : String) : List (String × JsVal) → JsVal
  | [] => .undefined
  | (k, v) :: rest => if k = key then v else lookupProp key rest

/-- How the receiver is named in the message of a TypeError. -/
def nullishName : JsVal → String
  | .null => "null"
  | _ => "undefined"

/-- The TypeError thrown on reading property `key` of `undefined` or `null`
(message in the wording of V8; no result below depends on the wording). -/
def typeErrorRead (base : JsVal) (key : String) : JsVal :=
  .obj [("name", .str "TypeError"),
        ("message", .str ("Cannot read properties of " ++ nullishName base ++
          " (reading \x27" ++ key ++ "\x27)"))]

/-- The TypeError thrown on calling a member that is not a function. -/
def typeErrorNotFunction (callee : String) : JsVal :=
  .obj [("name", .str "TypeError"), ("message", .str (callee ++ " is not a function"))]

/-- The `length` of a string: its number of UTF-16 code units. -/
def utf16Length (s : String) : Nat :=
  s.data.foldl (fun n c => n + (if c.toNat < 65536 then 1 else 2)) 0

/-- The member access `base.key` for the property names the component reads.
Reading from `undefined` or `null` throws; objects give their own data property;
strings and arrays give their `length`; everything else is `undefined` (none of
the names read by the component is inherited from a built-in prototype). -/
def getProp (base : JsVal) (key : String) : Except JsVal JsVal :=
  match base with
  | .undefined => .error (typeErrorRead base key)
  | .null => .error (typeErrorRead base key)
  | .obj props => .ok (lookupProp key props)
  | .arr items => .ok (if key = "length" then .num items.length else .undefined)
  | .str s => .ok (if key = "length" then .num (utf16Length s) else .undefined)
  | _ => .ok .undefined

/-! ## Component state -/

/-- The object held by the `searchForm` hook (lines 9-14). -/
structure SearchForm where
  origin : JsVal
  destination : JsVal
  date : JsVal
  passengers : JsVal

/-- The five `useState` hooks of `App` (lines 9-19). -/
structure UiState where
  searchForm : SearchForm
  searchResults : JsVal
  loading : Bool
  error : JsVal
  airports : JsVal

/-- Initial value of `searchForm`; `today` is `format(new Date(), 'yyyy-MM-dd')`. -/
def initialSearchForm (today : String) : SearchForm :=
  { origin := .str "LAX", destination := .str "JFK", date := .str today, passengers := .num 1 }

/-- State of `App` on first render. -/
def initialState (today : String) : UiState :=
  { searchForm := initialSearchForm today
    searchResults := .null
    loading := false
    error := .null
    airports := .arr [] }

/-- The `name` attribute of the four controls bound to `handleInputChange`
(lines 104, 122, 141, 153). -/
inductive InputName where
  | origin | destination | date | passengers

/-- The `e.target` of a change event: the control's name and its `value`, which
the DOM always delivers as a string. -/
structure ChangeTarget where
  name : InputName
  value : String

/-- The updater `prev => ({ ...prev, [name]: value })` of `handleInputChange`. -/
def SearchForm.assign (prev : SearchForm) (name : InputName) (value : JsVal) : SearchForm :=
  match name with
  | .origin => { prev with origin := value }
  | .destination => { prev with destination := value }
  | .date => { prev with date := value }
  | .passengers => { prev with passengers := value }

/-- Handler `handleInputChange` (lines 35-41). -/
def handleInputChange (target : ChangeTarget) (s : UiState) : UiState :=
  { s with searchForm := s.searchForm.assign target.name (.str target.value) }

/-- The updater of `swapAirports`:
`prev => ({ ...prev, origin: prev.destination, destination: prev.origin })`. -/
def SearchForm.swap (prev : SearchForm) : SearchForm :=
  { prev with origin := prev.destination, destination := prev.origin }

/-- Handler `swapAirports` (lines 64-70). -/
def swapAirports (s : UiState) : UiState :=
  { s with searchForm := s.searchForm.swap }

/-! ## The search request -/

/-- Constant `API_BASE_URL`. -/
def API_BASE_URL : String := "http://localhost:8000"

/-- The request body: the `searchForm` object as handed to `axios.post`. -/
def searchFormBody (f : SearchForm) : JsVal :=
  .obj [("origin", f.origin), ("destination", f.destination),
        ("date", f.date), ("passengers", f.passengers)]

/-- How the promise returned by `axios.post` settles. -/
inductive PostOutcome where
  | resolved (response : JsVal) : PostOutcome
  | rejected (err : JsVal) : PostOutcome

/-- The state once `handleSearch` has settled, and the exception its promise is
rejected with when one escapes the `catch` block. -/
structure Settled where
  state : UiState
  uncaught : Option JsVal

/-- Body of the `try` block after the `await` (lines 52-56), run on the state
`s` reached by the three setters of lines 45-47. -/
def searchTryBody (response : JsVal) (s : UiState) : Except JsVal UiState := do
  let data ← getProp response "data"
  let success ← getProp data "success"
  if success.truthy then
    let data ← getProp response "data"
    let result ← getProp data "data"
    pure { s with searchResults := result }
  else
    let data ← getProp response "data"
    let error ← getProp data "error"
    pure { s with error := error.or (.str "Search failed") }

/-- The optional chain `err.response?.data?.error`. -/
def errResponseDataError (err : JsVal) : Except JsVal JsVal := do
  let response ← getProp err "response"
  if response.isNullish then pure .undefined
  else
    let data ← getProp response "data"
    if data.isNullish then pure .undefined
    else getProp data "error"

/-- The `catch` block (line 58):
`setError(err.response?.data?.error || err.message || 'Network error')`. -/
def searchCatchBody (err : JsVal) (s : UiState) : Except JsVal UiState := do
  let fromBody ← errResponseDataError err
  if fromBody.truthy then pure { s with error := fromBody }
  else
    let message ← getProp err "message"
    pure { s with error := message.or (.str "Network error") }

/-- Handler `handleSearch` (lines 43-62). `axiosPost url body` is how
`axios.post(url, body)` settles; `e.preventDefault()` does not touch the state.
The `finally` block runs on every path, also when the `catch` block throws. -/
def handleSearch (axiosPost : String → JsVal → PostOutcome) (s : UiState) : Settled :=
  let s1 := { s with loading := true }
  let s2 := { s1 with error := .null }
  let s3 := { s2 with searchResults := .null }
  let tried : Except JsVal UiState :=
    match axiosPost (API_BASE_URL ++ "/api/search") (searchFormBody s.searchForm) with
    | .resolved response => searchTryBody response s3
    | .rejected err => .error err
  let caught : Except JsVal UiState :=
    match tried with
    | .ok s4 => .ok s4
    | .error err => searchCatchBody err s3
  match caught with
  | .ok s5 => { state := { s5 with loading := false }, uncaught := none }
  | .error ex => { state := { s3 with loading := false }, uncaught := some ex }

/-- Guard of the error banner, `{error && (...)}` (line 199). -/
def showsErrorBanner (s : UiState) : Bool := s.error.truthy

/-- Guard of the results panel, `{searchResults && (...)}` (line 207). -/
def showsResultsPanel (s : UiState) : Bool := s.searchResults.truthy

/-! ## Rendering -/

/-- React elements as returned by the component functions. -/
inductive Node where
  /-- Literal JSX text. -/
  | text (s : String) : Node
  /-- A child `{expr}` that evaluated to a JavaScript value. -/
  | value (v : JsVal) : Node
  /-- A host element with its `className` (`""` when it has none) and children. -/
  | elem (tag : String) (className : String) (children : List Node) : Node
  /-- An icon component of `lucide-react`. -/
  | icon (name : String) (className : String) : Node
  /-- The element `<FlightCard key={index} flight={flight} />`. -/
  | flightCard (key : Nat) (flight : JsVal) : Node

mutual
/-- The `flight` props of the `FlightCard` elements of a tree, in document order. -/
def Node.flightCards : Node → List JsVal
  | .text _ => []
  | .value _ => []
  | .elem _ _ children => flightCardsOfList children
  | .icon _ _ => []
  | .flightCard _ flight => [flight]
/-- The `flight` props of the `FlightCard` elements of a list of siblings. -/
def flightCardsOfList : List Node → List JsVal
  | [] => []
  | child :: rest => child.flightCards ++ flightCardsOfList rest
end

mutual
/-- The `className` of every host element of a tree, in document order. -/
def Node.classNames : Node → List String
  | .text _ => []
  | .value _ => []
  | .elem _ className children => className :: classNamesOfList children
  | .icon _ _ => []
  | .flightCard _ _ => []
/-- The `className` of every host element of a list of siblings. -/
def classNamesOfList : List Node → List String
  | [] => []
  | child :: rest => child.classNames ++ classNamesOfList rest
end

mutual
/-- The literal JSX text of a tree, in document order. -/
def Node.literals : Node → List String
  | .text s => [s]
  | .value _ => []
  | .elem _ _ children => literalsOfList children
  | .icon _ _ => []
  | .flightCard _ _ => []
/-- The literal JSX text of a list of siblings. -/
def literalsOfList : List Node → List String
  | [] => []
  | child :: rest => child.literals ++ literalsOfList rest
end

/-- Library routines the component calls but does not define. -/
structure Lib where
  /-- The call `format(new Date(d), 'EEEE, MMMM do, yyyy')` of date-fns, which
  throws a RangeError when `d` is not a valid date. -/
  formatLongDate : JsVal → Except JsVal String
  /-- The call `x.toFixed(2)` on a number. -/
  toFixed2 : ℚ → String
  /-- The call `x.toLocaleString()` on a number. -/
  numberToLocaleString : ℚ → String
  /-- The call `v.toLocaleString()` on a truthy value that is not a number. -/
  otherToLocaleString : JsVal → Except JsVal String

/-- The method call `v.toFixed(2)` on a truthy value `v`, written `callee` in
the source: only numbers have the method. -/
def callToFixed2 (lib : Lib) (callee : String) (v : JsVal) : Except JsVal String :=
  match v with
  | .num q => .ok (lib.toFixed2 q)
  | _ => .error (typeErrorNotFunction (callee ++ ".toFixed"))

/-- The method call `v.toLocaleString()` on a truthy value `v`. -/
def callToLocaleString (lib : Lib) (v : JsVal) : Except JsVal String :=
  match v with
  | .num q => .ok (lib.numberToLocaleString q)
  | _ => lib.otherToLocaleString v

/-- The error banner `{error && (...)}` (lines 199-204). -/
def errorBanner (error : JsVal) : Node :=
  if error.truthy then
    .elem "div" "alert alert-error fade-in"
      [.icon "AlertCircle" "h-5 w-5 inline mr-2", .value error]
  else .value error

/-- The indicator `{flight.cpp !== null ? (...) : (...)}` of `FlightCard`
(lines 269-279), given the value of `flight.cpp`. -/
def cppIndicator (cpp : JsVal) : Node :=
  if cpp.isNotNull then
    .elem "div" "flex items-center text-green-600"
      [.icon "CheckCircle" "h-4 w-4 mr-1",
       .elem "span" "text-sm font-medium" [.text "CPP Available"]]
  else
    .elem "div" "flex items-center text-gray-500"
      [.icon "AlertCircle" "h-4 w-4 mr-1",
       .elem "span" "text-sm" [.text "Limited Data"]]

/-- The element of lines 296-302, `shown` being `flight.cash_price_usd.toFixed(2)`. -/
def cashPriceElement (shown : String) : Node :=
  .elem "div" "price-item"
    [.elem "div" "price-label" [.text "Cash Price"],
     .elem "div" "price-value"
       [.icon "DollarSign" "h-4 w-4 inline mr-1", .value (.str shown)]]

/-- The cash price item `{flight.cash_price_usd && (...)}` (lines 295-303). -/
def cashPriceItem (lib : Lib) (cash : JsVal) : Except JsVal Node :=
  if cash.truthy then do
    let shown ← callToFixed2 lib "flight.cash_price_usd" cash
    pure (cashPriceElement shown)
  else pure (.value cash)

/-- The element of lines 306-312, `shown` being
`flight.points_required.toLocaleString()`. -/
def awardPointsElement (shown : String) : Node :=
  .elem "div" "price-item"
    [.elem "div" "price-label" [.text "Award Points"],
     .elem "div" "price-value"
       [.icon "Award" "h-4 w-4 inline mr-1", .value (.str shown)]]

/-- The award points item `{flight.points_required && (...)}` (lines 305-313). -/
def awardPointsItem (lib : Lib) (points : JsVal) : Except JsVal Node :=
  if points.truthy then do
    let shown ← callToLocaleString lib points
    pure (awardPointsElement shown)
  else pure (.value points)

/-- The element of lines 316-319, `shown` being `flight.cpp.toFixed(2)`. -/
def cppBadgeElement (shown : String) : Node :=
  .elem "div" "price-item col-span-2"
    [.elem "div" "cpp-label" [.text "Cents Per Point"],
     .elem "div" "cpp-value" [.value (.str shown), .text "¢"]]

/-- The Cents Per Point badge `{flight.cpp && (...)}` (lines 315-320). -/
def cppBadge (lib : Lib) (cpp : JsVal) : Except JsVal Node :=
  if cpp.truthy then do
    let shown ← callToFixed2 lib "flight.cpp" cpp
    pure (cppBadgeElement shown)
  else pure (.value cpp)

/-- The element of lines 324-327, `shown` being `flight.taxes_fees_usd.toFixed(2)`. -/
def taxesFeesElement (shown : String) : Node :=
  .elem "div" "mt-4 text-sm text-gray-600"
    [.icon "Clock" "h-4 w-4 inline mr-1", .text "Taxes & Fees: $", .value (.str shown)]

/-- The taxes and fees line `{flight.taxes_fees_usd && (...)}` (lines 323-328). -/
def taxesFeesLine (lib : Lib) (taxes : JsVal) : Except JsVal Node :=
  if taxes.truthy then do
    let shown ← callToFixed2 lib "flight.taxes_fees_usd" taxes
    pure (taxesFeesElement shown)
  else pure (.value taxes)

/-- The element returned by `FlightCard` (lines 265-329), given the values of
`flight.flight_number`, `flight.cpp`, `flight.departure_time` and
`flight.arrival_time` and the four conditional items. -/
def flightCardElement (flightNumber cpp departure arrival : JsVal)
    (cash points badge taxes : Node) : Node :=
  .elem "div" "flight-card fade-in"
    [.elem "div" "flight-header"
       [.elem "div" "flight-number" [.value flightNumber],
        .elem "div" "flex items-center space-x-2" [cppIndicator cpp]],
     .elem "div" "flight-times"
       [.elem "div" "time-group"
          [.elem "div" "time-label" [.text "Departure"],
           .elem "div" "time-value" [.value departure]],
        .elem "div" "time-group"
          [.elem "div" "time-label" [.text "Arrival"],
           .elem "div" "time-value" [.value arrival]]],
     .elem "div" "flight-pricing" [cash, points, badge],
     taxes]

/-- Component `FlightCard` (lines 263-331). -/
def FlightCard (lib : Lib) (flight : JsVal) : Except JsVal Node := do
  let flightNumber ← getProp flight "flight_number"
  let cpp ← getProp flight "cpp"
  let departure ← getProp flight "departure_time"
  let arrival ← getProp flight "arrival_time"
  let cash ← cashPriceItem lib (← getProp flight "cash_price_usd")
  let points ← awardPointsItem lib (← getProp flight "points_required")
  let badge ← cppBadge lib (← getProp flight "cpp")
  let taxes ← taxesFeesLine lib (← getProp flight "taxes_fees_usd")
  pure (flightCardElement flightNumber cpp departure arrival cash points badge taxes)

/-- The elements `flights.map((flight, index) => <FlightCard key={index}
flight={flight} />)`, for the flights from position `index` on. -/
def flightCardElements (index : Nat) : List JsVal → List Node
  | [] => []
  | flight :: rest => .flightCard index flight :: flightCardElements (index + 1) rest

/-- The card of the empty result (lines 240-244). -/
def noFlightsCard : Node :=
  .elem "div" "card text-center"
    [.icon "AlertCircle" "h-12 w-12 text-gray-400 mx-auto mb-4",
     .elem "h3" "text-lg font-semibold text-gray-900 mb-2" [.text "No Flights Found"],
     .elem "p" "text-gray-600" [.text "Try adjusting your search criteria"]]

/-- The grid of flight cards (lines 234-238). -/
def flightGrid (flights : List JsVal) : Node :=
  .elem "div" "grid grid-cols-1 lg:grid-cols-2 gap-6" (flightCardElements 0 flights)

/-- The flight results `{searchResults.flights.length > 0 ? (...) : (...)}`
(lines 233-245) for the array `flights`. -/
def flightResults (flights : List JsVal) : Node :=
  if flights.length > 0 then flightGrid flights else noFlightsCard

/-- The count `flights.filter(f => f.cpp !== null).length` over an array. -/
def countWithCpp : List JsVal → Except JsVal Nat
  | [] => pure 0
  | f :: rest => do
      let cpp ← getProp f "cpp"
      let n ← countWithCpp rest
      pure (if cpp.isNotNull then n + 1 else n)

/-- The search summary card (lines 210-230), given the values of its
expressions: origin, destination, formatted date and passengers of
`search_metadata`, `total_results`, and the number of flights with CPP data. -/
def searchSummary (origin destination : JsVal) (longDate : String) (passengers total : JsVal)
    (withCpp : Nat) : Node :=
  .elem "div" "card mb-6"
    [.elem "div" "flex items-center justify-between"
       [.elem "div" ""
          [.elem "h3" "text-xl font-bold text-gray-900"
             [.value origin, .text " → ", .value destination],
           .elem "p" "text-gray-600"
             [.value (.str longDate), .text " •", .value passengers, .text " ",
              .value (.str (if passengers.strictEqOne then "Passenger" else "Passengers"))]],
        .elem "div" "text-right"
          [.elem "div" "text-2xl font-bold text-green-600"
             [.value total, .text " Flights Found"],
           .elem "div" "text-sm text-gray-600"
             [.value (.num withCpp), .text " with CPP data"]]]]

/-- The results panel `{searchResults && (...)}` (lines 207-247). Only an array
has the method `filter` called on line 226, so line 233 is reached with an
array. -/
def resultsPanel (lib : Lib) (searchResults : JsVal) : Except JsVal Node :=
  if searchResults.truthy then do
    let metadata ← getProp searchResults "search_metadata"
    let origin ← getProp metadata "origin"
    let destination ← getProp metadata "destination"
    let date ← getProp metadata "date"
    let longDate ← lib.formatLongDate date
    let passengers ← getProp metadata "passengers"
    let total ← getProp searchResults "total_results"
    let flights ← getProp searchResults "flights"
    match flights with
    | .arr items =>
        let withCpp ← countWithCpp items
        pure (.elem "div" "fade-in"
          [searchSummary origin destination longDate passengers total withCpp,
           flightResults items])
    | .undefined => throw (typeErrorRead flights "filter")
    | .null => throw (typeErrorRead flights "filter")
    | _ => throw (typeErrorNotFunction "searchResults.flights.filter")
  else pure (.value searchResults)

/-! ## Concrete inputs -/

/-- The URL `handleSearch` posts to. -/
def searchUrl : String := API_BASE_URL ++ "/api/search"

/-- An `axios.post` that resolves with a response whose body is `envelope`. -/
def respondWith (envelope : JsVal) : String → JsVal → PostOutcome :=
  fun _ _ => .resolved (.obj [("data", envelope), ("status", .num 200)])

/-- An `axios.post` that is rejected with `err`. -/
def rejectWith (err : JsVal) : String → JsVal → PostOutcome :=
  fun _ _ => .rejected err

/-- The metadata of a search from LAX to JFK for two passengers. -/
def sampleMetadata : JsVal :=
  .obj [("origin", .str "LAX"), ("destination", .str "JFK"),
        ("date", .str "2024-06-01"), ("passengers", .num 2)]

/-- A flight with cash price, award price and CPP. -/
def sampleFlight : JsVal :=
  .obj [("flight_number", .str "AA100"),
        ("departure_time", .str "08:00"), ("arrival_time", .str "16:00"),
        ("cash_price_usd", .num 450), ("points_required", .num 60000),
        ("cpp", .num (3 / 4)), ("taxes_fees_usd", .num (56 / 5))]

/-- A search result with one flight. -/
def sampleResult : JsVal :=
  .obj [("search_metadata", sampleMetadata), ("total_results", .num 1),
        ("flights", .arr [sampleFlight])]

/-- Envelope `{ success: true, data: ... }`. -/
def successEnvelope : JsVal :=
  .obj [("success", .bool true), ("data", sampleResult)]

/-- Envelope `{ success: false, error: "No flights available" }`. -/
def failureEnvelope : JsVal :=
  .obj [("success", .bool false), ("error", .str "No flights available")]

/-- Envelope `{ success: false }`, without an `error` field. -/
def failureWithoutError : JsVal :=
  .obj [("success", .bool false)]

/-- Envelope `{ success: true }`, without a `data` field. -/
def successWithoutData : JsVal :=
  .obj [("success", .bool true)]

/-- Envelope `{ success: false, error: "" }`. -/
def emptyErrorEnvelope : JsVal :=
  .obj [("success", .bool false), ("error", .str "")]

/-- The error of a request that got no response. -/
def networkError : JsVal :=
  .obj [("name", .str "AxiosError"), ("message", .str "Network Error")]

/-- The error of a request answered with status 500 and a JSON body that has an
`error` field. -/
def httpError : JsVal :=
  .obj [("name", .str "AxiosError"),
        ("message", .str "Request failed with status code 500"),
        ("response", .obj [("status", .num 500),
          ("data", .obj [("error", .str "Scraper unavailable")])])]

/-- A state of `App` before the first search. -/
def idleState : UiState := initialState "2024-06-01"

/-- The events that change the search form: a change of one of the four
controls, or a click on the swap button. -/
inductive FormEvent where
  | change (target : ChangeTarget) : FormEvent
  | swap : FormEvent

/-- The handler run by an event. -/
def applyEvent (s : UiState) : FormEvent → UiState
  | .change target => handleInputChange target s
  | .swap => swapAirports s

/-- The state after a sequence of events. -/
def applyEvents (s : UiState) (events : List FormEvent) : UiState :=
  events.foldl applyEvent s

/-- The passenger count of a SearchRequest: an integer between 1 and 8. -/
def isPassengerCount : JsVal → Bool
  | .num q => decide (q.den = 1 ∧ 1 ≤ q ∧ q ≤ 8)
  | _ => false

/-- The test `typeof v === 'string'`. -/
def isString : JsVal → Bool
  | .str _ => true
  | _ => false

/-- A field of the response contract typed `number | absent`: a number, `null`
or `undefined`. -/
def isOptionalNumber : JsVal → Bool
  | .undefined => true
  | .null => true
  | .num _ => true
  | _ => false

/-- Two decimal digits of a natural number below 100. -/
def twoDigits (n : Nat) : String :=
  if n < 10 then "0" ++ toString n else toString n

/-- An instance of `Lib` for running the definitions on concrete inputs: a date
string is shown as it is and any other value is rejected as an invalid date;
`toFixed(2)` is the decimal notation with two fraction digits, rounded half up
in magnitude; `toLocaleString` of a number is its nearest integer without digit
grouping, and of any other value `[object Object]`. -/
def sampleLib : Lib where
  formatLongDate d :=
    match d with
    | .str s => if s = "" then .error (.obj [("name", .str "RangeError"),
        ("message", .str "Invalid time value")]) else .ok s
    | _ => .error (.obj [("name", .str "RangeError"), ("message", .str "Invalid time value")])
  toFixed2 q :=
    let n := (|q| * 100 + 1 / 2).floor.toNat
    (if q < 0 then "-" else "") ++ toString (n / 100) ++ "." ++ twoDigits (n % 100)
  numberToLocaleString q :=
    (if q < 0 then "-" else "") ++ toString (|q| + 1 / 2).floor.toNat
  otherToLocaleString _ := .ok "[object Object]"

/-- The properties of a flight whose `cpp` and `points_required` are `null`. -/
def flightWithoutCppProps : List (String × JsVal) :=
  [("flight_number", .str "AA200"), ("departure_time", .str "09:30"),
   ("arrival_time", .str "17:45"), ("cash_price_usd", .num 320),
   ("points_required", .null), ("cpp", .null), ("taxes_fees_usd", .num (56 / 5))]

/-- A search result without flights. -/
def emptyResult : JsVal :=
  .obj [("search_metadata", sampleMetadata), ("total_results", .num 0), ("flights", .arr [])]

/-- The types of the form fields that every handler preserves: origin,
destination and date are strings, passengers is the initial number 1 or a
string. -/
def formTyped (f : SearchForm) : Bool :=
  isString f.origin && isString f.destination && isString f.date &&
  (f.passengers.strictEqOne || isString f.passengers)

/-! ## Basic facts about the handlers -/

theorem getProp_obj (props : List (String × JsVal)) (key : String) :
    getProp (.obj props) key = .ok (lookupProp key props) := rfl

theorem getProp_ok_of_not_nullish (base : JsVal) (key : String)
    (h : base.isNullish = false) : ∃ v, getProp base key = .ok v := by
  cases base <;> simp_all [getProp, JsVal.isNullish]

theorem or_truthy (a : JsVal) (fallback : String) (h : fallback ≠ "") :
    (a.or (.str fallback)).truthy = true := by
  unfold JsVal.or
  split
  · assumption
  · simp [JsVal.truthy, h]

/-- The state `handleSearch` leaves when the `try` block completes normally. -/
theorem handleSearch_of_try_ok (axiosPost : String → JsVal → PostOutcome) (s s4 : UiState)
    (response : JsVal)
    (hpost : axiosPost searchUrl (searchFormBody s.searchForm) = .resolved response)
    (htry : searchTryBody response
      { s with loading := true, error := .null, searchResults := .null } = .ok s4) :
    handleSearch axiosPost s = { state := { s4 with loading := false }, uncaught := none } := by
  unfold searchUrl at hpost
  simp only [handleSearch, hpost, htry]

/-- The state `handleSearch` leaves when the request is rejected and the `catch`
block completes normally. -/
theorem handleSearch_of_catch_ok (axiosPost : String → JsVal → PostOutcome) (s s5 : UiState)
    (err : JsVal)
    (hpost : axiosPost searchUrl (searchFormBody s.searchForm) = .rejected err)
    (hcatch : searchCatchBody err
      { s with loading := true, error := .null, searchResults := .null } = .ok s5) :
    handleSearch axiosPost s = { state := { s5 with loading := false }, uncaught := none } := by
  unfold searchUrl at hpost
  simp only [handleSearch, hpost, hcatch]

theorem getProp_ok_of_ok (base : JsVal) (key other : String) (v : JsVal)
    (h : getProp base key = .ok v) : ∃ w, getProp base other = .ok w := by
  cases base <;> simp_all [getProp]

/-- The `try` block on an envelope whose `success` is truthy. -/
theorem searchTryBody_success (response envelope success result : JsVal) (s : UiState)
    (hdata : getProp response "data" = .ok envelope)
    (hsuccess : getProp envelope "success" = .ok success)
    (htruthy : success.truthy = true)
    (hresult : getProp envelope "data" = .ok result) :
    searchTryBody response s = .ok { s with searchResults := result } := by
  simp [searchTryBody, hdata, hsuccess, htruthy, hresult, bind, Except.bind, pure, Except.pure]

/-- The `try` block on an envelope whose `success` is falsy. -/
theorem searchTryBody_failure (response envelope success error : JsVal) (s : UiState)
    (hdata : getProp response "data" = .ok envelope)
    (hsuccess : getProp envelope "success" = .ok success)
    (hfalsy : success.truthy = false)
    (herror : getProp envelope "error" = .ok error) :
    searchTryBody response s = .ok { s with error := error.or (.str "Search failed") } := by
  simp [searchTryBody, hdata, hsuccess, hfalsy, herror, bind, Except.bind, pure, Except.pure]

/-- The `catch` block on an error that is neither `undefined` nor `null`. -/
theorem searchCatchBody_ok (err : JsVal) (s : UiState) (h : err.isNullish = false) :
    ∃ fromBody message,
      errResponseDataError err = .ok fromBody ∧ getProp err "message" = .ok message ∧
      searchCatchBody err s = .ok { s with error :=
        if fromBody.truthy then fromBody else message.or (.str "Network error") } := by
  obtain ⟨response, hresponse⟩ := getProp_ok_of_not_nullish err "response" h
  obtain ⟨message, hmessage⟩ := getProp_ok_of_not_nullish err "message" h
  have hchain : ∃ fromBody, errResponseDataError err = .ok fromBody := by
    unfold errResponseDataError
    simp only [hresponse, bind, Except.bind, pure, Except.pure]
    by_cases hr : response.isNullish = true
    · simp [hr]
    · have hr2 : response.isNullish = false := by simpa using hr
      obtain ⟨data, hdata⟩ := getProp_ok_of_not_nullish response "data" hr2
      simp only [hr2, hdata]
      by_cases hd : data.isNullish = true
      · simp [hd]
      · have hd2 : data.isNullish = false := by simpa using hd
        obtain ⟨e, he⟩ := getProp_ok_of_not_nullish data "error" hd2
        simp [hd2, he]
  obtain ⟨fromBody, hfromBody⟩ := hchain
  refine ⟨fromBody, message, hfromBody, hmessage, ?_⟩
  unfold searchCatchBody
  simp only [hfromBody, hmessage, bind, Except.bind, pure, Except.pure]
  split <;> rfl

/-- The state `handleSearch` leaves after a rejection by an error that is
neither `undefined` nor `null`. -/
theorem handleSearch_rejected (axiosPost : String → JsVal → PostOutcome) (s : UiState)
    (err : JsVal)
    (hpost : axiosPost searchUrl (searchFormBody s.searchForm) = .rejected err)
    (hnullish : err.isNullish = false) :
    ∃ fromBody message,
      errResponseDataError err = .ok fromBody ∧ getProp err "message" = .ok message ∧
      (handleSearch axiosPost s).state.error =
        (if fromBody.truthy then fromBody else message.or (.str "Network error")) ∧
      (handleSearch axiosPost s).state.searchResults = .null := by
  obtain ⟨fromBody, message, hfromBody, hmessage, hcatch⟩ := searchCatchBody_ok err
    { s with loading := true, error := .null, searchResults := .null } hnullish
  rw [handleSearch_of_catch_ok axiosPost s _ err hpost hcatch]
  exact ⟨fromBody, message, hfromBody, hmessage, rfl, rfl⟩

/-- Only a truthy value has a property that is an array. -/
theorem truthy_of_getProp_arr (base : JsVal) (key : String) (items : List JsVal)
    (h : getProp base key = .ok (.arr items)) : base.truthy = true := by
  cases base with
  | undefined => simp [getProp] at h
  | null => simp [getProp] at h
  | bool b => simp [getProp] at h
  | num q => simp [getProp] at h
  | str s =>
    simp only [getProp] at h
    split at h <;> simp at h
  | arr xs => rfl
  | obj props => rfl

theorem formTyped_iff (f : SearchForm) :
    formTyped f = true ↔
      isString f.origin = true ∧ isString f.destination = true ∧ isString f.date = true ∧
      (f.passengers.strictEqOne = true ∨ isString f.passengers = true) := by
  simp [formTyped, and_assoc]

theorem formTyped_applyEvent (s : UiState) (event : FormEvent)
    (h : formTyped s.searchForm = true) : formTyped (applyEvent s event).searchForm = true := by
  rw [formTyped_iff] at h ⊢
  obtain ⟨ho, hd, hdate, hp⟩ := h
  cases event with
  | swap => exact ⟨hd, ho, hdate, hp⟩
  | change target =>
    obtain ⟨name, value⟩ := target
    cases name
    · exact ⟨rfl, hd, hdate, hp⟩
    · exact ⟨ho, rfl, hdate, hp⟩
    · exact ⟨ho, hd, rfl, hp⟩
    · exact ⟨ho, hd, hdate, Or.inr rfl⟩

theorem formTyped_applyEvents (events : List FormEvent) (s : UiState)
    (h : formTyped s.searchForm = true) : formTyped (applyEvents s events).searchForm = true := by
  induction events generalizing s with
  | nil => exact h
  | cons event rest ih => exact ih (applyEvent s event) (formTyped_applyEvent s event h)

/-- In every state reached from the initial one, origin, destination and date
are strings, and passengers is the number 1 or a string. -/
theorem formTyped_reachable (today : String) (events : List FormEvent) :
    formTyped (applyEvents (initialState today) events).searchForm = true := by
  apply formTyped_applyEvents
  rw [formTyped_iff]
  exact ⟨rfl, rfl, rfl, Or.inl (by simp [initialState, initialSearchForm, JsVal.strictEqOne])⟩

theorem flightCardsOfList_flightCardElements (flights : List JsVal) (index : Nat) :
    flightCardsOfList (flightCardElements index flights) = flights := by
  induction flights generalizing index with
  | nil => rfl
  | cons flight rest ih => simp [flightCardElements, flightCardsOfList, Node.flightCards, ih]

theorem classNamesOfList_flightCardElements (flights : List JsVal) (index : Nat) :
    classNamesOfList (flightCardElements index flights) = [] := by
  induction flights generalizing index with
  | nil => rfl
  | cons flight rest ih => simp [flightCardElements, classNamesOfList, Node.classNames, ih]

theorem literalsOfList_flightCardElements (flights : List JsVal) (index : Nat) :
    literalsOfList (flightCardElements index flights) = [] := by
  induction flights generalizing index with
  | nil => rfl
  | cons flight rest ih => simp [flightCardElements, literalsOfList, Node.literals, ih]

/-- The callback of line 226 returns on every array whose elements are neither
`undefined` nor `null`. -/
theorem countWithCpp_ok (flights : List JsVal) (h : ∀ f ∈ flights, f.isNullish = false) :
    ∃ n, countWithCpp flights = .ok n := by
  induction flights with
  | nil => exact ⟨0, rfl⟩
  | cons flight rest ih =>
    obtain ⟨n, hn⟩ := ih (fun f hf => h f (List.mem_cons_of_mem _ hf))
    obtain ⟨cpp, hcpp⟩ := getProp_ok_of_not_nullish flight "cpp" (h flight (List.mem_cons_self _ _))
    refine ⟨if cpp.isNotNull then n + 1 else n, ?_⟩
    simp [countWithCpp, hn, hcpp, bind, Except.bind, pure, Except.pure]

theorem cashPriceItem_ok (lib : Lib) (cash : JsVal) (h : isOptionalNumber cash = true) :
    cashPriceItem lib cash = .ok (.value cash) ∨
    ∃ shown, cashPriceItem lib cash = .ok (cashPriceElement shown) := by
  cases cash with
  | undefined => exact Or.inl rfl
  | null => exact Or.inl rfl
  | num q =>
    by_cases hq : q = 0
    · left
      simp [cashPriceItem, JsVal.truthy, hq, pure, Except.pure]
    · right
      exact ⟨lib.toFixed2 q, by
        simp [cashPriceItem, JsVal.truthy, hq, callToFixed2, bind, Except.bind, pure,
          Except.pure]⟩
  | bool b => simp [isOptionalNumber] at h
  | str t => simp [isOptionalNumber] at h
  | arr xs => simp [isOptionalNumber] at h
  | obj ps => simp [isOptionalNumber] at h

theorem awardPointsItem_ok (lib : Lib) (points : JsVal) (h : isOptionalNumber points = true) :
    awardPointsItem lib points = .ok (.value points) ∨
    ∃ shown, awardPointsItem lib points = .ok (awardPointsElement shown) := by
  cases points with
  | undefined => exact Or.inl rfl
  | null => exact Or.inl rfl
  | num q =>
    by_cases hq : q = 0
    · left
      simp [awardPointsItem, JsVal.truthy, hq, pure, Except.pure]
    · right
      exact ⟨lib.numberToLocaleString q, by
        simp [awardPointsItem, JsVal.truthy, hq, callToLocaleString, bind, Except.bind, pure,
          Except.pure]⟩
  | bool b => simp [isOptionalNumber] at h
  | str t => simp [isOptionalNumber] at h
  | arr xs => simp [isOptionalNumber] at h
  | obj ps => simp [isOptionalNumber] at h

theorem taxesFeesLine_ok (lib : Lib) (taxes : JsVal) (h : isOptionalNumber taxes = true) :
    taxesFeesLine lib taxes = .ok (.value taxes) ∨
    ∃ shown, taxesFeesLine lib taxes = .ok (taxesFeesElement shown) := by
  cases taxes with
  | undefined => exact Or.inl rfl
  | null => exact Or.inl rfl
  | num q =>
    by_cases hq : q = 0
    · left
      simp [taxesFeesLine, JsVal.truthy, hq, pure, Except.pure]
    · right
      exact ⟨lib.toFixed2 q, by
        simp [taxesFeesLine, JsVal.truthy, hq, callToFixed2, bind, Except.bind, pure,
          Except.pure]⟩
  | bool b => simp [isOptionalNumber] at h
  | str t => simp [isOptionalNumber] at h
  | arr xs => simp [isOptionalNumber] at h
  | obj ps => simp [isOptionalNumber] at h

/-- The error banner is an element exactly when its guard holds. -/
theorem errorBanner_of_guard (s : UiState) :
    (showsErrorBanner s = true → errorBanner s.error =
      .elem "div" "alert alert-error fade-in"
        [.icon "AlertCircle" "h-5 w-5 inline mr-2", .value s.error]) ∧
    (showsErrorBanner s = false → errorBanner s.error = .value s.error) := by
  unfold showsErrorBanner errorBanner
  constructor <;> intro h <;> simp [h]

/-- The results panel renders nothing when its guard fails. -/
theorem resultsPanel_of_guard_false (lib : Lib) (s : UiState)
    (h : showsResultsPanel s = false) :
    resultsPanel lib s.searchResults = .ok (.value s.searchResults) := by
  unfold showsResultsPanel at h
  simp [resultsPanel, h, pure, Except.pure]

/-- The `try` block sets `searchResults` or `error`, never both. -/
theorem searchTryBody_sets_one (response : JsVal) (s s4 : UiState)
    (h : searchTryBody response s = .ok s4) :
    s4.error = s.error ∨ s4.searchResults = s.searchResults := by
  unfold searchTryBody at h
  cases hdata : getProp response "data" with
  | error e => simp [hdata, bind, Except.bind] at h
  | ok data =>
    cases hsuccess : getProp data "success" with
    | error e => simp [hdata, hsuccess, bind, Except.bind] at h
    | ok success =>
      obtain ⟨result, hresult⟩ := getProp_ok_of_ok data "success" "data" _ hsuccess
      obtain ⟨error, herror⟩ := getProp_ok_of_ok data "success" "error" _ hsuccess
      simp only [hdata, hsuccess, hresult, herror, bind, Except.bind, pure, Except.pure] at h
      split at h
      · left
        rw [← Except.ok.inj h]
      · right
        rw [← Except.ok.inj h]

/-- The `catch` block leaves `searchResults` as it is. -/
theorem searchCatchBody_keeps_results (err : JsVal) (s s5 : UiState)
    (h : searchCatchBody err s = .ok s5) : s5.searchResults = s.searchResults := by
  unfold searchCatchBody at h
  cases hb : errResponseDataError err with
  | error e => simp [hb, bind, Except.bind] at h
  | ok fromBody =>
    simp only [hb, bind, Except.bind, pure, Except.pure] at h
    split at h
    · rw [← Except.ok.inj h]
    · cases hm : getProp err "message" with
      | error e => simp [hm] at h
      | ok message =>
        simp only [hm] at h
        rw [← Except.ok.inj h]

/-- After `handleSearch` settles, the results panel and the error banner are
never both rendered, however the POST settled. -/
theorem handleSearch_never_both (axiosPost : String → JsVal → PostOutcome) (s : UiState) :
    ¬ (showsResultsPanel (handleSearch axiosPost s).state = true ∧
       showsErrorBanner (handleSearch axiosPost s).state = true) := by
  intro ⟨hresults, hbanner⟩
  unfold handleSearch at hresults hbanner
  simp only [] at hresults hbanner
  cases hpost : axiosPost (API_BASE_URL ++ "/api/search") (searchFormBody s.searchForm) with
  | resolved response =>
    simp only [hpost] at hresults hbanner
    cases htry : searchTryBody response
        { s with loading := true, error := .null, searchResults := .null } with
    | ok s4 =>
      simp only [htry] at hresults hbanner
      rcases searchTryBody_sets_one response _ s4 htry with h | h
      · simp [showsErrorBanner, h, JsVal.truthy] at hbanner
      · simp [showsResultsPanel, h, JsVal.truthy] at hresults
    | error err =>
      simp only [htry] at hresults hbanner
      cases hcatch : searchCatchBody err
          { s with loading := true, error := .null, searchResults := .null } with
      | ok s5 =>
        simp only [hcatch] at hresults
        have : s5.searchResults = .null := searchCatchBody_keeps_results err _ s5 hcatch
        simp [showsResultsPanel, this, JsVal.truthy] at hresults
      | error ex =>
        simp only [hcatch] at hresults
        simp [showsResultsPanel, JsVal.truthy] at hresults
  | rejected err =>
    simp only [hpost] at hresults hbanner
    cases hcatch : searchCatchBody err
        { s with loading := true, error := .null, searchResults := .null } with
    | ok s5 =>
      simp only [hcatch] at hresults
      have : s5.searchResults = .null := searchCatchBody_keeps_results err _ s5 hcatch
      simp [showsResultsPanel, this, JsVal.truthy] at hresults
    | error ex =>
      simp only [hcatch] at hresults
      simp [showsResultsPanel, JsVal.truthy] at hresults

/-! ## Claims -/

/-- C1 (as stated) fails: on the envelope `{ success: true }`, which carries no
`data`, `handleSearch` settles with neither the results panel nor the error
banner rendered. -/
theorem C1_neither_state_without_data :
    getProp successWithoutData "success" = .ok (.bool true) ∧
    showsResultsPanel (handleSearch (respondWith successWithoutData) idleState).state = false ∧
    showsErrorBanner (handleSearch (respondWith successWithoutData) idleState).state = false :=
  ⟨rfl, rfl, rfl⟩

/-- C1 (amended): for every prior state, when the POST settles with an envelope
that has `success = true` and carries truthy `data` (any SearchResult object),
with an envelope that has `success = false`, or with a rejection by an error
value other than `undefined` and `null`, then after `handleSearch` settles
exactly one of the results state and the error state holds. -/
theorem C1_exactly_one_state (axiosPost : String → JsVal → PostOutcome) (s : UiState)
    (h : (∃ response envelope result,
            axiosPost searchUrl (searchFormBody s.searchForm) = .resolved response ∧
            getProp response "data" = .ok envelope ∧
            getProp envelope "success" = .ok (.bool true) ∧
            getProp envelope "data" = .ok result ∧ result.truthy = true) ∨
         (∃ response envelope,
            axiosPost searchUrl (searchFormBody s.searchForm) = .resolved response ∧
            getProp response "data" = .ok envelope ∧
            getProp envelope "success" = .ok (.bool false)) ∨
         (∃ err,
            axiosPost searchUrl (searchFormBody s.searchForm) = .rejected err ∧
            err.isNullish = false)) :
    (showsResultsPanel (handleSearch axiosPost s).state = true ∧
      showsErrorBanner (handleSearch axiosPost s).state = false) ∨
    (showsResultsPanel (handleSearch axiosPost s).state = false ∧
      showsErrorBanner (handleSearch axiosPost s).state = true) := by
  rcases h with ⟨response, envelope, result, hpost, hdata, hsuccess, hresult, htruthy⟩ |
    ⟨response, envelope, hpost, hdata, hsuccess⟩ | ⟨err, hpost, hnullish⟩
  · left
    rw [handleSearch_of_try_ok axiosPost s _ response hpost
      (searchTryBody_success response envelope _ result _ hdata hsuccess rfl hresult)]
    exact ⟨htruthy, rfl⟩
  · right
    obtain ⟨error, herror⟩ := getProp_ok_of_ok envelope "success" "error" _ hsuccess
    rw [handleSearch_of_try_ok axiosPost s _ response hpost
      (searchTryBody_failure response envelope _ error _ hdata hsuccess rfl herror)]
    exact ⟨rfl, or_truthy error "Search failed" (by decide)⟩
  · right
    obtain ⟨fromBody, message, -, -, hcatch⟩ := searchCatchBody_ok err
      { s with loading := true, error := .null, searchResults := .null } hnullish
    rw [handleSearch_of_catch_ok axiosPost s _ err hpost hcatch]
    refine ⟨rfl, ?_⟩
    show JsVal.truthy (if fromBody.truthy then fromBody
      else message.or (.str "Network error")) = true
    by_cases hb : fromBody.truthy = true
    · simp [hb]
    · simp only [hb]
      exact or_truthy message "Network error" (by decide)

/-- The theorem of C1 at a success envelope that carries a search result. -/
theorem C1_exactly_one_state_witness :
    (respondWith successEnvelope searchUrl (searchFormBody idleState.searchForm)
        = .resolved (.obj [("data", successEnvelope), ("status", .num 200)]) ∧
      getProp (.obj [("data", successEnvelope), ("status", .num 200)]) "data"
        = .ok successEnvelope ∧
      getProp successEnvelope "success" = .ok (.bool true) ∧
      getProp successEnvelope "data" = .ok sampleResult ∧ sampleResult.truthy = true) ∧
    ((showsResultsPanel (handleSearch (respondWith successEnvelope) idleState).state = true ∧
      showsErrorBanner (handleSearch (respondWith successEnvelope) idleState).state = false) ∨
     (showsResultsPanel (handleSearch (respondWith successEnvelope) idleState).state = false ∧
      showsErrorBanner (handleSearch (respondWith successEnvelope) idleState).state = true)) :=
  ⟨⟨rfl, rfl, rfl, rfl, rfl⟩,
   C1_exactly_one_state (respondWith successEnvelope) idleState
     (Or.inl ⟨_, successEnvelope, sampleResult, rfl, rfl, rfl, rfl, rfl⟩)⟩

/-- C2 (as stated) fails: the envelope `{ success: false, error: "" }` carries
an `error` field, yet `handleSearch` ends with `error` equal to the fallback
`Search failed` and not to the string the backend provided. -/
theorem C2_fallback_replaces_empty_error :
    getProp emptyErrorEnvelope "success" = .ok (.bool false) ∧
    getProp emptyErrorEnvelope "error" = .ok (.str "") ∧
    (handleSearch (respondWith emptyErrorEnvelope) idleState).state.error
      = .str "Search failed" ∧
    (handleSearch (respondWith emptyErrorEnvelope) idleState).state.error ≠ .str "" := by
  refine ⟨rfl, rfl, rfl, ?_⟩
  show JsVal.str "Search failed" ≠ JsVal.str ""
  simp

/-- C2 (amended): for every response envelope with `success = false`,
`handleSearch` ends in the error state; `error` equals the envelope's error
string verbatim when that string is not empty, and equals the fallback
`Search failed` when the envelope carries no `error` field or its error string
is empty. -/
theorem C2_error_from_envelope (axiosPost : String → JsVal → PostOutcome) (s : UiState)
    (response envelope errorField : JsVal)
    (hpost : axiosPost searchUrl (searchFormBody s.searchForm) = .resolved response)
    (hdata : getProp response "data" = .ok envelope)
    (hsuccess : getProp envelope "success" = .ok (.bool false))
    (herror : getProp envelope "error" = .ok errorField) :
    showsErrorBanner (handleSearch axiosPost s).state = true ∧
    showsResultsPanel (handleSearch axiosPost s).state = false ∧
    (∀ e : String, errorField = .str e → e ≠ "" →
      (handleSearch axiosPost s).state.error = .str e) ∧
    (errorField = .undefined ∨ errorField = .str "" →
      (handleSearch axiosPost s).state.error = .str "Search failed") := by
  rw [handleSearch_of_try_ok axiosPost s _ response hpost
    (searchTryBody_failure response envelope _ errorField _ hdata hsuccess rfl herror)]
  refine ⟨or_truthy errorField "Search failed" (by decide), rfl, ?_, ?_⟩
  · intro e he hne
    subst he
    show (JsVal.str e).or (.str "Search failed") = .str e
    simp [JsVal.or, JsVal.truthy, hne]
  · intro h
    show errorField.or (.str "Search failed") = .str "Search failed"
    rcases h with h | h <;> subst h <;> simp [JsVal.or, JsVal.truthy]

/-- The theorem of C2 at a failure envelope with an error string, which is shown
verbatim, and at one without an `error` field, which shows the fallback. -/
theorem C2_error_from_envelope_witness :
    (respondWith failureEnvelope searchUrl (searchFormBody idleState.searchForm)
        = .resolved (.obj [("data", failureEnvelope), ("status", .num 200)]) ∧
      getProp (.obj [("data", failureEnvelope), ("status", .num 200)]) "data"
        = .ok failureEnvelope ∧
      getProp failureEnvelope "success" = .ok (.bool false) ∧
      getProp failureEnvelope "error" = .ok (.str "No flights available")) ∧
    (handleSearch (respondWith failureEnvelope) idleState).state.error
      = .str "No flights available" ∧
    (respondWith failureWithoutError searchUrl (searchFormBody idleState.searchForm)
        = .resolved (.obj [("data", failureWithoutError), ("status", .num 200)]) ∧
      getProp (.obj [("data", failureWithoutError), ("status", .num 200)]) "data"
        = .ok failureWithoutError ∧
      getProp failureWithoutError "success" = .ok (.bool false) ∧
      getProp failureWithoutError "error" = .ok .undefined) ∧
    (handleSearch (respondWith failureWithoutError) idleState).state.error
      = .str "Search failed" :=
  ⟨⟨rfl, rfl, rfl, rfl⟩,
   (C2_error_from_envelope (respondWith failureEnvelope) idleState
      (.obj [("data", failureEnvelope), ("status", .num 200)]) failureEnvelope
      (.str "No flights available") rfl rfl rfl rfl).2.2.1 "No flights available" rfl
      (by decide),
   ⟨rfl, rfl, rfl, rfl⟩,
   (C2_error_from_envelope (respondWith failureWithoutError) idleState
      (.obj [("data", failureWithoutError), ("status", .num 200)]) failureWithoutError
      .undefined rfl rfl rfl rfl).2.2.2 (Or.inl rfl)⟩

/-- C3 (as stated) fails: a POST rejected with an error that carries a response
whose body has an `error` field ends with `error` equal to that field, not to
the message of the thrown error. -/
theorem C3_response_body_error_wins :
    getProp httpError "message" = .ok (.str "Request failed with status code 500") ∧
    (handleSearch (rejectWith httpError) idleState).state.error
      = .str "Scraper unavailable" ∧
    (handleSearch (rejectWith httpError) idleState).state.error
      ≠ .str "Request failed with status code 500" := by
  refine ⟨rfl, rfl, ?_⟩
  show JsVal.str "Scraper unavailable" ≠ JsVal.str "Request failed with status code 500"
  simp

/-- C3 (amended): for every rejection of the POST by an error value other than
`undefined` and `null`, `handleSearch` ends in the error state, and `error`
equals `err.response?.data?.error` when that is truthy, otherwise the message of
the error when that is truthy, otherwise the fallback `Network error`; in
particular, for an error that carries no response, `error` is the message of the
error, or `Network error` when it has no message or an empty one. -/
theorem C3_error_from_rejection (axiosPost : String → JsVal → PostOutcome) (s : UiState)
    (err : JsVal)
    (hpost : axiosPost searchUrl (searchFormBody s.searchForm) = .rejected err)
    (hnullish : err.isNullish = false) :
    showsErrorBanner (handleSearch axiosPost s).state = true ∧
    showsResultsPanel (handleSearch axiosPost s).state = false ∧
    (∃ fromBody message,
      errResponseDataError err = .ok fromBody ∧ getProp err "message" = .ok message ∧
      (fromBody.truthy = true → (handleSearch axiosPost s).state.error = fromBody) ∧
      (fromBody.truthy = false → message.truthy = true →
        (handleSearch axiosPost s).state.error = message) ∧
      (fromBody.truthy = false → message.truthy = false →
        (handleSearch axiosPost s).state.error = .str "Network error")) ∧
    (∀ response message, getProp err "response" = .ok response →
      response.isNullish = true → getProp err "message" = .ok message →
      (handleSearch axiosPost s).state.error = message.or (.str "Network error")) := by
  obtain ⟨fromBody, message, hfromBody, hmessage, herr, hresults⟩ :=
    handleSearch_rejected axiosPost s err hpost hnullish
  refine ⟨?_, ?_, ⟨fromBody, message, hfromBody, hmessage, ?_, ?_, ?_⟩, ?_⟩
  · unfold showsErrorBanner
    rw [herr]
    by_cases hb : fromBody.truthy = true
    · simp [hb]
    · simp only [hb]
      exact or_truthy message "Network error" (by decide)
  · unfold showsResultsPanel
    rw [hresults]
    rfl
  · intro hb
    rw [herr]; simp [hb]
  · intro hb hm
    rw [herr]; simp [hb, hm, JsVal.or]
  · intro hb hm
    rw [herr]; simp [hb, hm, JsVal.or]
  · intro response message2 hresponse hr hmessage2
    rw [herr]
    have hm : message2 = message := by
      rw [hmessage] at hmessage2
      exact (Except.ok.inj hmessage2).symm
    subst hm
    have hu : fromBody = .undefined := by
      unfold errResponseDataError at hfromBody
      simp only [hresponse, hr, bind, Except.bind, pure, Except.pure] at hfromBody
      simpa using hfromBody.symm
    subst hu
    simp [JsVal.truthy]

/-- The theorem of C3 at a request that got no response: the message of the
error is shown. -/
theorem C3_error_from_rejection_witness :
    (rejectWith networkError searchUrl (searchFormBody idleState.searchForm)
        = .rejected networkError ∧
      networkError.isNullish = false ∧
      getProp networkError "response" = .ok .undefined ∧
      getProp networkError "message" = .ok (.str "Network Error")) ∧
    (handleSearch (rejectWith networkError) idleState).state.error = .str "Network Error" :=
  ⟨⟨rfl, rfl, rfl, rfl⟩,
   (C3_error_from_rejection (rejectWith networkError) idleState networkError rfl rfl).2.2.2
      .undefined (.str "Network Error") rfl rfl rfl⟩

/-- C4: for every prior state and every response envelope, if the envelope has
`success = true` then after `handleSearch` settles `error` is `null` and the
error banner does not render; if it has `success = false` then `searchResults`
is `null` and the results panel does not render. -/
theorem C4_banner_and_panel_exclusive (axiosPost : String → JsVal → PostOutcome)
    (s : UiState) (response envelope : JsVal) (success : Bool)
    (hpost : axiosPost searchUrl (searchFormBody s.searchForm) = .resolved response)
    (hdata : getProp response "data" = .ok envelope)
    (hsuccess : getProp envelope "success" = .ok (.bool success)) :
    (success = true →
      (handleSearch axiosPost s).state.error = .null ∧
      showsErrorBanner (handleSearch axiosPost s).state = false) ∧
    (success = false →
      (handleSearch axiosPost s).state.searchResults = .null ∧
      showsResultsPanel (handleSearch axiosPost s).state = false) := by
  constructor
  · intro hs
    subst hs
    obtain ⟨result, hresult⟩ := getProp_ok_of_ok envelope "success" "data" _ hsuccess
    rw [handleSearch_of_try_ok axiosPost s _ response hpost
      (searchTryBody_success response envelope _ result _ hdata hsuccess rfl hresult)]
    exact ⟨rfl, rfl⟩
  · intro hs
    subst hs
    obtain ⟨error, herror⟩ := getProp_ok_of_ok envelope "success" "error" _ hsuccess
    rw [handleSearch_of_try_ok axiosPost s _ response hpost
      (searchTryBody_failure response envelope _ error _ hdata hsuccess rfl herror)]
    exact ⟨rfl, rfl⟩

/-- The theorem of C4 at a success envelope. -/
theorem C4_banner_and_panel_exclusive_witness :
    (respondWith successEnvelope searchUrl (searchFormBody idleState.searchForm)
        = .resolved (.obj [("data", successEnvelope), ("status", .num 200)]) ∧
      getProp (.obj [("data", successEnvelope), ("status", .num 200)]) "data"
        = .ok successEnvelope ∧
      getProp successEnvelope "success" = .ok (.bool true)) ∧
    (handleSearch (respondWith successEnvelope) idleState).state.error = .null ∧
    showsErrorBanner (handleSearch (respondWith successEnvelope) idleState).state = false :=
  ⟨⟨rfl, rfl, rfl⟩,
   (C4_banner_and_panel_exclusive (respondWith successEnvelope) idleState
      (.obj [("data", successEnvelope), ("status", .num 200)]) successEnvelope true
      rfl rfl rfl).1 rfl⟩

/-- C5: in every terminal case of `handleSearch` (success envelope, failure
envelope, rejected request, exception raised while the response is read, even an
exception escaping the `catch` block), `loading` is false once it has settled. -/
theorem C5_loading_cleared (axiosPost : String → JsVal → PostOutcome) (s : UiState) :
    (handleSearch axiosPost s).state.loading = false := by
  unfold handleSearch
  simp only []
  split <;> rfl

/-- C6: `swapAirports` is its own inverse: applied twice it gives back the
original origin and destination, and the whole state equals the original. -/
theorem C6_swap_involutive (s : UiState) :
    (swapAirports (swapAirports s)).searchForm.origin = s.searchForm.origin ∧
    (swapAirports (swapAirports s)).searchForm.destination = s.searchForm.destination ∧
    (swapAirports (swapAirports s)).searchForm = s.searchForm ∧
    swapAirports (swapAirports s) = s := by
  refine ⟨rfl, rfl, rfl, rfl⟩

/-- C7: `swapAirports` sets origin to the previous destination and destination
to the previous origin and changes nothing else: date, passengers,
`searchResults`, `error`, `loading` and `airports` are unchanged. -/
theorem C7_swap_frame (s : UiState) :
    (swapAirports s).searchForm.origin = s.searchForm.destination ∧
    (swapAirports s).searchForm.destination = s.searchForm.origin ∧
    (swapAirports s).searchForm.date = s.searchForm.date ∧
    (swapAirports s).searchForm.passengers = s.searchForm.passengers ∧
    (swapAirports s).searchResults = s.searchResults ∧
    (swapAirports s).error = s.error ∧
    (swapAirports s).loading = s.loading ∧
    (swapAirports s).airports = s.airports := by
  refine ⟨rfl, rfl, rfl, rfl, rfl, rfl, rfl, rfl⟩

/-- C8 (the code departs from the claim): after the passengers control is
changed once, the body handed to `axios.post` has the string the DOM delivered
as `passengers`, not an integer between 1 and 8. -/
theorem C8_passengers_posted_as_string (today : String) :
    getProp (searchFormBody
        (applyEvents (initialState today) [.change ⟨.passengers, "2"⟩]).searchForm)
      "passengers" = .ok (.str "2") ∧
    isPassengerCount (.str "2") = false ∧
    isPassengerCount (initialState today).searchForm.passengers = true := by
  refine ⟨rfl, rfl, ?_⟩
  simp [initialState, initialSearchForm, isPassengerCount]

/-- C9: for every SearchResult held in the results state (metadata present,
date accepted by the date formatter, flights an array of flight objects), the
results panel renders; when the flights sequence is empty it contains the
`No Flights Found` card and no flight-card grid, and when it is not empty it
contains the grid with exactly one `FlightCard` per flight, in order, and no
`No Flights Found` card. -/
theorem C9_flight_results (lib : Lib) (searchResults metadata date : JsVal)
    (longDate : String) (flights : List JsVal)
    (hmeta : getProp searchResults "search_metadata" = .ok metadata)
    (hobj : metadata.isNullish = false)
    (hdate : getProp metadata "date" = .ok date)
    (hformat : lib.formatLongDate date = .ok longDate)
    (hflights : getProp searchResults "flights" = .ok (.arr flights))
    (hitems : ∀ f ∈ flights, f.isNullish = false) :
    ∃ summary tree,
      resultsPanel lib searchResults = .ok tree ∧
      tree = .elem "div" "fade-in" [summary, flightResults flights] ∧
      (flights = [] →
        flightResults flights = noFlightsCard ∧
        "No Flights Found" ∈ tree.literals ∧
        "card text-center" ∈ tree.classNames ∧
        "grid grid-cols-1 lg:grid-cols-2 gap-6" ∉ tree.classNames ∧
        tree.flightCards = []) ∧
      (flights ≠ [] →
        flightResults flights = flightGrid flights ∧
        "grid grid-cols-1 lg:grid-cols-2 gap-6" ∈ tree.classNames ∧
        tree.flightCards = flights ∧
        "No Flights Found" ∉ tree.literals ∧
        "card text-center" ∉ tree.classNames) := by
  obtain ⟨origin, horigin⟩ := getProp_ok_of_not_nullish metadata "origin" hobj
  obtain ⟨destination, hdestination⟩ := getProp_ok_of_not_nullish metadata "destination" hobj
  obtain ⟨passengers, hpassengers⟩ := getProp_ok_of_not_nullish metadata "passengers" hobj
  obtain ⟨total, htotal⟩ := getProp_ok_of_ok searchResults "flights" "total_results" _ hflights
  obtain ⟨withCpp, hwithCpp⟩ := countWithCpp_ok flights hitems
  have htruthy : searchResults.truthy = true :=
    truthy_of_getProp_arr searchResults "flights" flights hflights
  refine ⟨searchSummary origin destination longDate passengers total withCpp, _, ?_, rfl,
    ?_, ?_⟩
  · simp only [resultsPanel, htruthy, hmeta, horigin, hdestination, hdate, hformat, hpassengers,
      htotal, hflights, hwithCpp, bind, Except.bind, pure, Except.pure, if_true]
  · intro hempty
    subst hempty
    simp [flightResults, noFlightsCard, searchSummary, Node.literals, literalsOfList, Node.classNames,
      classNamesOfList, Node.flightCards, flightCardsOfList]
  · intro hne
    have hlen : flights.length > 0 := List.length_pos.mpr hne
    simp [flightResults, flightGrid, searchSummary, hlen, Node.literals, literalsOfList, Node.classNames,
      classNamesOfList, Node.flightCards, flightCardsOfList,
      flightCardsOfList_flightCardElements, classNamesOfList_flightCardElements,
      literalsOfList_flightCardElements]

/-- The theorem of C9 at a search result with one flight and at one with none. -/
theorem C9_flight_results_witness :
    ((getProp sampleResult "search_metadata" = .ok sampleMetadata ∧
      sampleMetadata.isNullish = false ∧
      getProp sampleMetadata "date" = .ok (.str "2024-06-01") ∧
      sampleLib.formatLongDate (.str "2024-06-01") = .ok "2024-06-01" ∧
      getProp sampleResult "flights" = .ok (.arr [sampleFlight]) ∧
      (∀ f ∈ [sampleFlight], f.isNullish = false)) ∧
     ∃ tree, resultsPanel sampleLib sampleResult = .ok tree ∧
      tree.flightCards = [sampleFlight] ∧
      "No Flights Found" ∉ tree.literals) ∧
    ((getProp emptyResult "search_metadata" = .ok sampleMetadata ∧
      getProp emptyResult "flights" = .ok (.arr []) ∧
      (∀ f ∈ ([] : List JsVal), f.isNullish = false)) ∧
     ∃ tree, resultsPanel sampleLib emptyResult = .ok tree ∧
      tree.flightCards = [] ∧
      "No Flights Found" ∈ tree.literals) := by
  have hitems : ∀ f ∈ [sampleFlight], f.isNullish = false := by
    intro f hf
    rw [List.mem_singleton] at hf
    subst hf
    rfl
  have hnone : ∀ f ∈ ([] : List JsVal), f.isNullish = false := by
    intro f hf
    cases hf
  refine ⟨⟨⟨rfl, rfl, rfl, rfl, rfl, hitems⟩, ?_⟩, ⟨⟨rfl, rfl, hnone⟩, ?_⟩⟩
  · obtain ⟨_, tree, hrender, -, -, hfilled⟩ :=
      C9_flight_results sampleLib sampleResult sampleMetadata (.str "2024-06-01") "2024-06-01"
        [sampleFlight] rfl rfl rfl rfl rfl hitems
    obtain ⟨-, -, hcards, hliterals, -⟩ := hfilled (List.cons_ne_nil _ _)
    exact ⟨tree, hrender, hcards, hliterals⟩
  · obtain ⟨_, tree, hrender, -, hempty, -⟩ :=
      C9_flight_results sampleLib emptyResult sampleMetadata (.str "2024-06-01") "2024-06-01"
        [] rfl rfl rfl rfl rfl hnone
    obtain ⟨-, hliterals, -, -, hcards⟩ := hempty rfl
    exact ⟨tree, hrender, hcards, hliterals⟩

/-- C10: for every Flight (an object whose price fields are numbers or absent)
with `cpp = null`, `FlightCard` renders, omits the Cents Per Point badge and
shows the `Limited Data` indicator instead of the `CPP Available` indicator. -/
theorem C10_flight_without_cpp (lib : Lib) (props : List (String × JsVal))
    (hcpp : lookupProp "cpp" props = .null)
    (hcash : isOptionalNumber (lookupProp "cash_price_usd" props) = true)
    (hpoints : isOptionalNumber (lookupProp "points_required" props) = true)
    (htaxes : isOptionalNumber (lookupProp "taxes_fees_usd" props) = true) :
    ∃ tree, FlightCard lib (.obj props) = .ok tree ∧
      cppBadge lib (lookupProp "cpp" props) = .ok (.value .null) ∧
      "Cents Per Point" ∉ tree.literals ∧
      "price-item col-span-2" ∉ tree.classNames ∧
      "cpp-value" ∉ tree.classNames ∧
      "Limited Data" ∈ tree.literals ∧
      "CPP Available" ∉ tree.literals := by
  have hbadge : cppBadge lib (lookupProp "cpp" props) = .ok (.value .null) := by
    rw [hcpp]; rfl
  have hrender : ∀ cash points taxes : Node,
      cashPriceItem lib (lookupProp "cash_price_usd" props) = .ok cash →
      awardPointsItem lib (lookupProp "points_required" props) = .ok points →
      taxesFeesLine lib (lookupProp "taxes_fees_usd" props) = .ok taxes →
      FlightCard lib (.obj props) = .ok (flightCardElement
        (lookupProp "flight_number" props) .null (lookupProp "departure_time" props)
        (lookupProp "arrival_time" props) cash points (.value .null) taxes) := by
    intro cash points taxes hc hp ht
    simp only [FlightCard, getProp_obj, hcpp, hc, hp, ht, bind, Except.bind, pure, Except.pure]
    rfl
  rcases cashPriceItem_ok lib _ hcash with hc | ⟨c, hc⟩ <;>
  rcases awardPointsItem_ok lib _ hpoints with hp | ⟨p, hp⟩ <;>
  rcases taxesFeesLine_ok lib _ htaxes with ht | ⟨t, ht⟩ <;>
  · refine ⟨_, hrender _ _ _ hc hp ht, hbadge, ?_⟩
    simp [flightCardElement, cppIndicator, JsVal.isNotNull, cashPriceElement,
      awardPointsElement, taxesFeesElement, Node.literals, literalsOfList, Node.classNames,
      classNamesOfList]

/-- The theorem of C10 at a flight whose `cpp` is `null`. -/
theorem C10_flight_without_cpp_witness :
    (lookupProp "cpp" flightWithoutCppProps = .null ∧
      isOptionalNumber (lookupProp "cash_price_usd" flightWithoutCppProps) = true ∧
      isOptionalNumber (lookupProp "points_required" flightWithoutCppProps) = true ∧
      isOptionalNumber (lookupProp "taxes_fees_usd" flightWithoutCppProps) = true) ∧
    ∃ tree, FlightCard sampleLib (.obj flightWithoutCppProps) = .ok tree ∧
      cppBadge sampleLib (lookupProp "cpp" flightWithoutCppProps) = .ok (.value .null) ∧
      "Cents Per Point" ∉ tree.literals ∧
      "price-item col-span-2" ∉ tree.classNames ∧
      "cpp-value" ∉ tree.classNames ∧
      "Limited Data" ∈ tree.literals ∧
      "CPP Available" ∉ tree.literals :=
  ⟨⟨rfl, rfl, rfl, rfl⟩,
   C10_flight_without_cpp sampleLib flightWithoutCppProps rfl rfl rfl rfl⟩

end FlightSearch
